import Mathlib

/-!
Verification development for the Car_visualizer repository.

The definitions below are a shallow embedding of the job-orchestration core:

* the per-identity daily rate limiter (`src/backend/app.py`, `check_rate_limit`
  / `increment_rate_limit`),
* the job lifecycle state machine driven by the background worker
  (`process_video_generation`), the cancel endpoint (`cancel_job`) and the
  contact-sheet download endpoint (`download_contact_sheet`),
* the credential-failover retrier (`src/gg.py`, `_generate_higgsfield_video`),
* the status poller (`_poll_status`),
* the batch scheduler (`generate_videos_from_frames`) and the pipeline
  coordinator (`process_car_images`).

External network calls, the file system and clocks are modelled as explicit oracle
parameters; Python dictionaries returned by the source functions are modelled
as structures whose fields carry the same names.
-/

set_option linter.unusedVariables false

namespace CarVisualizer

/-! ## Rate limiter (src/backend/app.py lines 64-96)

The store maps an IP to `{"date": ..., "count": ...}`.  We model the view of
the store at a single identity as an `Option RateRecord` (absent key = `none`),
and the wall-clock day as an opaque `String` parameter (the code uses
`datetime.now().strftime("%Y-%m-%d")`). -/

def MAX_GENERATIONS_PER_DAY : Nat := 15

structure RateRecord where
  date : String
  count : Nat
deriving DecidableEq, Repr

/-- Result of `check_rate_limit`: the record written back to the store and the
returned pair `(is_allowed, remaining)`.  The source computes
`remaining = MAX_GENERATIONS_PER_DAY - user_data["count"]` in `int` arithmetic
and returns `max(0, remaining)`, so `remaining` is modelled as an `Int`. -/
structure RateCheck where
  stored : RateRecord
  allowed : Bool
  remaining : Int
deriving DecidableEq, Repr

/-- `check_rate_limit` (app.py lines 67-87): insert a fresh record when the key
is absent, reset it when the stored date differs from today, then report
`count < MAX` and the clamped remaining budget.  Note that the function writes
the (possibly reset) record back into the store. -/
def check_rate_limit (today : String) (rec : Option RateRecord) : RateCheck :=
  let r0 := rec.getD { date := today, count := 0 }
  let r1 := if r0.date ≠ today then { date := today, count := 0 } else r0
  { stored := r1
    allowed := decide (r1.count < MAX_GENERATIONS_PER_DAY)
    remaining := max 0 ((MAX_GENERATIONS_PER_DAY : Int) - (r1.count : Int)) }

/-- `increment_rate_limit` (app.py lines 89-96): insert a fresh record when the
key is absent, then bump the count (no date reset here). -/
def increment_rate_limit (today : String) (rec : Option RateRecord) : RateRecord :=
  let r0 := rec.getD { date := today, count := 0 }
  { r0 with count := r0.count + 1 }

/-- One admission attempt as performed by the `/api/upload` endpoint
(app.py lines 136-185): `check_rate_limit` first (which writes the possibly
reset record), then `increment_rate_limit` only when admission was allowed.
Returns the new store view and whether the admission was accepted. -/
def admissionCycle (today : String) (rec : Option RateRecord) :
    Option RateRecord × Bool :=
  let c := check_rate_limit today rec
  if c.allowed then (some (increment_rate_limit today (some c.stored)), true)
  else (some c.stored, false)

/-- The store view at one identity after `n` admission attempts on day `today`,
starting from an absent record. -/
def iterAdmit (today : String) : Nat → Option RateRecord
  | 0 => none
  | n + 1 => (admissionCycle today (iterAdmit today n)).1

/-! ## Job lifecycle (src/backend/app.py lines 177-253, 316-338)

`job_status[job_id]` is a dict with keys `status`, `progress`, and optionally
`result` / `error`.  The background worker `process_video_generation` consists
of three atomic blocks separated by `await` suspension points:

* block A (lines 215-221): if already cancelled return, else set
  `status = "processing"`;
* block B (lines 223-227): the awaited pipeline call (suspension);
* block C (lines 229-253): if cancelled return, else classify the pipeline
  result into completed / failed; the `except` handler likewise refuses to
  overwrite a cancelled status.

The cancel endpoint can interleave at the suspension points.  We model the
worker program counter explicitly and give a step function over system states;
within a block no interleaving is possible (no `await` inside a block, and the
server runs a single event loop). -/

inductive Status
  | queued
  | processing
  | completed
  | failed
  | cancelled
deriving DecidableEq, Repr

def Status.isTerminal : Status → Bool
  | .completed => true
  | .failed => true
  | .cancelled => true
  | .queued => false
  | .processing => false

/-- The numeric summary assembled at gg.py lines 1110-1115. -/
structure Summary where
  total_frames : Nat
  total_videos : Nat
  successful_videos : Nat
  failed_videos : Nat
deriving DecidableEq, Repr

/-- The `job_status[job_id]["result"]` dict written at app.py lines 240-244;
each field uses `.get(...)` on the pipeline result, hence `Option`. -/
structure ResultRecord where
  contact_sheet : Option String
  final_video : Option String
  summary : Option Summary
deriving DecidableEq, Repr

structure Job where
  status : Status
  progress : String
  result : Option ResultRecord
  error : Option String
deriving DecidableEq, Repr

/-- Outcome of the awaited `process_car_images` call as seen by the worker:
a dict containing an `"error"` key (app.py line 234), a full result dict, or a
raised exception (app.py line 248). -/
inductive PipelineOutcome
  | ok (r : ResultRecord)
  | errKey (e : String)
  | raised (e : String)
deriving DecidableEq, Repr

inductive WorkerPC
  | start
  | running
  | done
deriving DecidableEq, Repr

structure SysState where
  job : Job
  pc : WorkerPC
deriving DecidableEq, Repr

inductive Ev
  | startWork
  | finish (o : PipelineOutcome)
  | cancel

/-- Block C of `process_video_generation` (app.py lines 229-253): the cancelled
check is performed before any write, both on the normal path (line 230) and in
the exception handler (line 250); otherwise the job is moved to
completed/failed. -/
def workerFinish (j : Job) (o : PipelineOutcome) : Job :=
  if j.status = .cancelled then j
  else
    match o with
    | .ok r =>
        { j with status := .completed
                 result := some r
                 progress := "Video generation complete!" }
    | .errKey e => { j with status := .failed, error := some e }
    | .raised e => { j with status := .failed, error := some e }

/-- One atomic step of the job system.  `startWork` is block A of the worker,
`finish o` is block C after the pipeline returned `o`, and `cancel` is the
`/api/cancel` endpoint body (app.py lines 326-335), which only fires from
`queued` or `processing`. -/
def step (s : SysState) (e : Ev) : Option SysState :=
  match e, s.pc with
  | .startWork, .start =>
      if s.job.status = .cancelled then some { job := s.job, pc := .done }
      else
        let j2 := { s.job with status := .processing
                               progress := "Generating contact sheet..." }
        some { job := j2, pc := .running }
  | .finish o, .running => some { job := workerFinish s.job o, pc := .done }
  | .cancel, _ =>
      if s.job.status = .queued ∨ s.job.status = .processing then
        let j2 := { s.job with status := .cancelled
                               progress := "Job cancelled by user" }
        some { job := j2, pc := s.pc }
      else none
  | _, _ => none

/-- The job record created at admission (app.py lines 178-182). -/
def initState : SysState :=
  { job := { status := .queued, progress := "Starting video generation...",
             result := none, error := none },
    pc := .start }

/-- States reachable from job creation. -/
inductive Reach : SysState → Prop
  | init : Reach initState
  | next {s s2 : SysState} (e : Ev) (hr : Reach s) (hs : step s e = some s2) :
      Reach s2

/-- Multi-step reachability between two states. -/
inductive Steps : SysState → SysState → Prop
  | refl (s : SysState) : Steps s s
  | tail {s t u : SysState} (e : Ev) (hst : Steps s t) (hs : step t e = some u) :
      Steps s u

/-- Inductive invariant of the job system: which combinations of status,
worker program counter and result/error presence can occur. -/
def JobInv (s : SysState) : Bool :=
  match s.job.status, s.pc, s.job.result, s.job.error with
  | .queued, .start, none, none => true
  | .processing, .running, none, none => true
  | .cancelled, _, none, none => true
  | .completed, .done, some _, none => true
  | .failed, .done, none, some _ => true
  | _, _, _, _ => false

/-- Whether exactly one of `result`/`error` is present on a job. -/
def exactlyOneSet (j : Job) : Bool :=
  (j.result.isSome && j.error.isNone) || (j.result.isNone && j.error.isSome)

/-- The state reached by cancelling a job while it is still queued. -/
def cancelledEarly : SysState :=
  { job := { status := .cancelled, progress := "Job cancelled by user",
             result := none, error := none },
    pc := .start }

/-- The state reached when the worker starts an uncancelled job. -/
def procState : SysState :=
  { job := { status := .processing, progress := "Generating contact sheet...",
             result := none, error := none },
    pc := .running }

/-! ## HTTP endpoints touched by the claims -/

inductive ApiError
  | notFound (msg : String)
  | badRequest (msg : String)
  | keyError (key : String)
deriving DecidableEq, Repr

/-- Body of `/api/cancel/{job_id}` (app.py lines 316-338) for a job that
exists: reject unless the status is queued or processing, else mark
cancelled. -/
def cancel_job (j : Job) : Except ApiError Job :=
  if j.status = .queued ∨ j.status = .processing then
    .ok { j with status := .cancelled
                 progress := "Job cancelled by user" }
  else .error (.badRequest "Cannot cancel job")

/-- Body of `/api/download/{job_id}/contact-sheet` (app.py lines 294-314) for
a job that exists.  The endpoint admits statuses `processing` and `completed`
and then evaluates `job["result"]["contact_sheet"]`; a missing `result` key is
a Python `KeyError`, modelled as `ApiError.keyError "result"`.  File-system
existence is an oracle. -/
def download_contact_sheet (j : Job) (fileExists : String → Bool) :
    Except ApiError String :=
  if j.status = .processing ∨ j.status = .completed then
    match j.result with
    | none => .error (.keyError "result")
    | some r =>
        match r.contact_sheet with
        | none => .error (.notFound "Contact sheet not found")
        | some p =>
            if fileExists p then .ok p
            else .error (.notFound "Contact sheet not found")
  else .error (.badRequest "Contact sheet not ready yet")

/-! ## Credential-failover retrier (src/gg.py lines 376-650)

`_submit_generation_request` returns a dict `{"success": ..., "status_url":
..., "request_id": ..., "error": ..., "details": ...}`; `_poll_status` returns
`{"success": ..., "video_url": ..., "error": ..., "details": ...}`.  A hosting
failure inside `upload_to_imgbb` (gg.py lines 324-370) re-raises, so a call to
`_submit_generation_request` can also end in an exception; its oracle therefore
returns `Except String SubmitResult` with `.error` the propagating exception
message.  Oracles are indexed by the number of calls made so far. -/

def MAX_RETRIES : Nat := 3

structure SubmitResult where
  success : Bool
  status_url : Option String := none
  request_id : Option String := none
  error : Option String := none
  details : Option String := none
deriving DecidableEq, Repr

structure PollResult where
  success : Bool
  video_url : Option String := none
  error : Option String := none
  details : Option String := none
deriving DecidableEq, Repr

/-- The success dict returned at gg.py lines 612-617 (latency is wall-clock
timing metadata, elided from the model). -/
structure GenSuccess where
  path : String
  duration_seconds : Nat
deriving DecidableEq, Repr

/-- How `_generate_higgsfield_video` can fail: a `VideoGenerationError` raised
by the retrier itself, or some other exception propagating through it
uncaught (e.g. a hosting failure inside submission). -/
inductive RetErr
  | exn (e : String)
  | genError (e : String)
deriving DecidableEq, Repr

/-- The retry loop of `_generate_higgsfield_video` (gg.py lines 538-619).
State: `attempt` (starts at 1), `cred_index` (starts at 0).  `sN`, `pN`, `dN`
count calls to the submit, poll and download oracles.  Besides the outcome the
model returns the list of credential indices used for the successive
submission requests, so that claims about "one submission attempt per
credential" can be stated.  Control flow mirrors the source line by line:

* submission raising an exception propagates out of the loop (no local catch);
* `insufficient_credits` with an unused credential left: switch credential,
  same attempt;
* `server_error*` with attempts left: consume an attempt, back off, resubmit;
* other submission errors: raise `VideoGenerationError` (fatal);
* missing `status_url`: fatal;
* `poll_timeout` / `poll_error_*` with attempts left: consume an attempt and
  resubmit with the same credential; other poll failures fatal;
* missing `video_url`: fatal; then download and return success. -/
def retrierLoop (creds : List (String × String))
    (submitO : Nat → Except String SubmitResult)
    (pollO : Nat → PollResult)
    (downloadO : Nat → Except String Unit)
    (outputPath : String) (durationSeconds : Nat)
    (attempt credIdx sN pN dN : Nat) :
    Except RetErr GenSuccess × List Nat :=
  if h : attempt ≤ MAX_RETRIES ∧ credIdx < creds.length then
    match submitO sN with
    | .error e => (.error (.exn e), [credIdx])
    | .ok sr =>
      if sr.success = false then
        let err := sr.error.getD "unknown_submit_error"
        if h2 : err = "insufficient_credits" ∧ credIdx + 1 < creds.length then
          let rest := retrierLoop creds submitO pollO downloadO outputPath
            durationSeconds attempt (credIdx + 1) (sN + 1) pN dN
          (rest.1, credIdx :: rest.2)
        else if h3 : err.startsWith "server_error" ∧ attempt < MAX_RETRIES then
          let rest := retrierLoop creds submitO pollO downloadO outputPath
            durationSeconds (attempt + 1) credIdx (sN + 1) pN dN
          (rest.1, credIdx :: rest.2)
        else (.error (.genError (sr.details.getD err)), [credIdx])
      else
        match sr.status_url with
        | none =>
            (.error (.genError "Missing status_url in Higgsfield response"),
             [credIdx])
        | some _ =>
          let pr := pollO pN
          if pr.success = false then
            let perr := pr.error.getD "unknown_poll_error"
            if h4 : perr = "poll_timeout" ∧ attempt < MAX_RETRIES then
              let rest := retrierLoop creds submitO pollO downloadO outputPath
                durationSeconds (attempt + 1) credIdx (sN + 1) (pN + 1) dN
              (rest.1, credIdx :: rest.2)
            else if h5 : perr.startsWith "poll_error_" ∧ attempt < MAX_RETRIES then
              let rest := retrierLoop creds submitO pollO downloadO outputPath
                durationSeconds (attempt + 1) credIdx (sN + 1) (pN + 1) dN
              (rest.1, credIdx :: rest.2)
            else (.error (.genError (pr.details.getD perr)), [credIdx])
          else
            match pr.video_url with
            | none =>
                (.error (.genError "Video URL missing from completed job"),
                 [credIdx])
            | some _ =>
              match downloadO dN with
              | .error e => (.error (.exn e), [credIdx])
              | .ok _ =>
                  (.ok { path := outputPath,
                         duration_seconds := durationSeconds }, [credIdx])
  else (.error (.genError "Failed to generate video after retries"), [])
termination_by (MAX_RETRIES + 1 - attempt) + (creds.length - credIdx)
decreasing_by
  · omega
  · omega
  · omega
  · omega

/-- The credential list built at gg.py lines 532-536: primary then secondary,
with empty keys filtered out. -/
def buildCredentials (k1 s1 k2 s2 : String) : List (String × String) :=
  [(k1, s1), (k2, s2)].filter (fun c => c.1 != "")

/-- `_generate_higgsfield_video` (gg.py lines 514-619): raise when the primary
key is missing, otherwise run the retry loop with `attempt = 1`,
`cred_index = 0`. -/
def generate_higgsfield_video (k1 s1 k2 s2 : String)
    (submitO : Nat → Except String SubmitResult)
    (pollO : Nat → PollResult)
    (downloadO : Nat → Except String Unit)
    (outputPath : String) (durationSeconds : Nat) :
    Except RetErr GenSuccess × List Nat :=
  if k1 = "" then
    (.error (.genError "HIGGSFIELD_API_KEY is not configured in .env"), [])
  else
    retrierLoop (buildCredentials k1 s1 k2 s2) submitO pollO downloadO
      outputPath durationSeconds 1 0 0 0 0

/-- The dict returned by `generate_higgsfield` (gg.py lines 621-650) /
captured by the batch scheduler: mirrors both the success dict and the
`{"success": False, "error": str(exc)}` failure dict. -/
structure VideoOutcome where
  success : Bool
  path : Option String := none
  duration_seconds : Option Nat := none
  error : Option String := none
deriving DecidableEq, Repr

/-- `generate_higgsfield` (gg.py lines 621-650): any exception out of the
retrier — `VideoGenerationError` or otherwise — is caught and converted to a
failure dict. -/
def generate_higgsfield (k1 s1 k2 s2 : String)
    (submitO : Nat → Except String SubmitResult)
    (pollO : Nat → PollResult)
    (downloadO : Nat → Except String Unit)
    (outputPath : String) (durationSeconds : Nat) :
    VideoOutcome × List Nat :=
  match generate_higgsfield_video k1 s1 k2 s2 submitO pollO downloadO
      outputPath durationSeconds with
  | (.ok g, log) =>
      ({ success := true, path := some g.path,
         duration_seconds := some g.duration_seconds }, log)
  | (.error (.exn e), log) => ({ success := false, error := some e }, log)
  | (.error (.genError e), log) => ({ success := false, error := some e }, log)

/-! ## Poller (src/gg.py lines 458-512)

`_poll_status` queries `status_url` until terminal.  The HTTP response at each
iteration is an oracle `resp`; the wall-clock duration of the request part of
iteration `k` is an oracle `reqTime k` (any non-negative rational).  The state
carries `elapsed = time.time() - start_time` and the current `poll_interval`
(2.0 initially, multiplied by 1.2 and capped at 10 after each pending
response).  The structural `fuel` argument is a modelling artifact bounding
the number of iterations considered; the theorems show a sufficient fuel for
the timeout ceiling of 900 seconds. -/

inductive PollHttp
  | ok200 (status : String) (videoUrl : Option String) (errField : Option String)
  | serverErr (code : Nat)
  | clientHttp (code : Nat) (body : String)
  | netErr
  | exc (msg : String)

structure PollSt where
  elapsed : ℚ
  interval : ℚ
deriving DecidableEq, Repr

/-- Responses that `_poll_status` swallows and retries: a 200 whose status is
neither "completed" nor "failed" (pending), a server 5xx, or a network
timeout / client connection error. -/
def PollTransient : PollHttp → Prop
  | .ok200 status _ _ => status ≠ "completed" ∧ status ≠ "failed"
  | .serverErr _ => True
  | .netErr => True
  | .clientHttp _ _ => False
  | .exc _ => False

/-- `_poll_status` (gg.py lines 458-512).  Branches in source order: timeout
check at the top of the loop, then the response: 200-completed (with or
without a video url), 200-failed, 200-pending (grow the interval, sleep,
continue), 5xx (sleep current interval, continue), other HTTP status (return
`poll_error_{status}`), network timeout / client error (sleep, continue),
unexpected exception (return `unexpected_poll_error`). -/
def poll_status (resp : Nat → PollHttp) (reqTime : Nat → ℚ) (maxWait : ℚ) :
    Nat → Nat → PollSt → Option (PollResult × PollSt)
  | 0, _, st =>
    if maxWait < st.elapsed then
      some ({ success := false, error := some "poll_timeout" }, st)
    else none
  | fuel + 1, k, st =>
    if maxWait < st.elapsed then
      some ({ success := false, error := some "poll_timeout" }, st)
    else
        let st1 : PollSt := { st with elapsed := st.elapsed + reqTime k }
        match resp k with
        | .ok200 status vurl errF =>
          if status = "completed" then
            match vurl with
            | some u => some ({ success := true, video_url := some u }, st1)
            | none =>
                some ({ success := false, error := some "missing_video_url" },
                      st1)
          else if status = "failed" then
            some ({ success := false,
                    error := some (errF.getD "generation_failed") }, st1)
          else
            let i2 := min (st1.interval * (6 / 5)) 10
            poll_status resp reqTime maxWait fuel (k + 1)
              { elapsed := st1.elapsed + i2, interval := i2 }
        | .serverErr _ =>
            poll_status resp reqTime maxWait fuel (k + 1)
              { st1 with elapsed := st1.elapsed + st1.interval }
        | .clientHttp c body =>
            some ({ success := false, error := some ("poll_error_" ++ toString c),
                    details := some body }, st1)
        | .netErr =>
            poll_status resp reqTime maxWait fuel (k + 1)
              { st1 with elapsed := st1.elapsed + st1.interval }
        | .exc m =>
            some ({ success := false,
                    error := some ("unexpected_poll_error: " ++ m) }, st1)

/-- The dict `{"success": False, "error": "poll_timeout"}` of gg.py line 480. -/
def pollTimeoutResult : PollResult :=
  { success := false, error := some "poll_timeout" }

/-- Initial poll state: `elapsed = 0`, `poll_interval = 2.0` (gg.py lines
472-473). -/
def pollInitSt : PollSt := { elapsed := 0, interval := 2 }

/-! ## Batch scheduler (src/gg.py lines 854-918)

`generate_videos_from_frames` requires exactly 9 frames, builds one task per
consecutive frame pair (indices 0..7), and runs them in batches of
`BATCH_SIZE = 3` via `asyncio.gather(..., return_exceptions=True)`, which
returns results in task submission order regardless of completion order and
converts a raised exception into a value.  The body of one task
(`generate_single_video`, closing over `frame_paths`) is abstracted by an
oracle `gen start_frame end_frame prompt_index output_path`, with `.error`
modelling an exception escaping the task. -/

def BATCH_SIZE : Nat := 3

/-- Length of `CAMERA_PROMPTS` (gg.py lines 781-791); the prompt text itself
is outside the claims, so a prompt is identified by its index. -/
def CAMERA_PROMPTS_COUNT : Nat := 9

/-- `CAMERA_PROMPTS[i] if i < len(CAMERA_PROMPTS) else CAMERA_PROMPTS[-1]`
(gg.py line 865), as a prompt index. -/
def cameraPromptIndex (i : Nat) : Nat :=
  if i < CAMERA_PROMPTS_COUNT then i else CAMERA_PROMPTS_COUNT - 1

/-- Zero-padded `{n:02d}` formatting used by the output file names. -/
def pad2 (n : Nat) : String :=
  if n < 10 then "0" ++ toString n else toString n

def framePath (dir : String) (n : Nat) : String :=
  dir ++ "/frame_" ++ pad2 n ++ ".png"

def upscaledFramePath (dir : String) (n : Nat) : String :=
  dir ++ "/upscaled_frame_" ++ pad2 n ++ ".png"

def videoSegPath (dir : String) (n : Nat) : String :=
  dir ++ "/video_segment_" ++ pad2 n ++ ".mp4"

/-- The closure `generate_single_video(i)` (gg.py lines 862-882): start frame
`frame_paths[i]`, end frame `frame_paths[i+1]`, prompt `CAMERA_PROMPTS[i]`,
output `video_segment_{i+1:02d}.mp4`. -/
def generate_single_video (frames : List String) (outputDir : String)
    (gen : String → String → Nat → String → Except String VideoOutcome)
    (i : Nat) : Except String VideoOutcome :=
  gen (frames.getD i "") (frames.getD (i + 1) "") (cameraPromptIndex i)
    (videoSegPath outputDir (i + 1))

/-- How a finished task is recorded (gg.py lines 899-907): a raised exception
becomes `{"success": False, "error": str(result)}`, a returned dict is
appended as is. -/
def captureOutcome : Except String VideoOutcome → VideoOutcome
  | .ok r => r
  | .error e => { success := false, error := some e }

/-- `range(a, b)` for `a ≤ b`. -/
def pyRange (a b : Nat) : List Nat :=
  (List.range (b - a)).map (a + ·)

/-- `range(0, n, k)` for `k > 0`: the batch start indices `[0, k, 2k, ...]`. -/
def pyRangeStep (n k : Nat) : List Nat :=
  (List.range ((n + k - 1) / k)).map (· * k)

/-- `generate_videos_from_frames` (gg.py lines 854-918): check for exactly 9
frames (raising `ValueError` otherwise), then for each batch start in
`range(0, 8, BATCH_SIZE)` gather the tasks `batch_start .. min(batch_start +
BATCH_SIZE, 8) - 1` concurrently and append their captured outcomes in task
order (the order `zip(batch_indices, batch_results)` produces). -/
def generate_videos_from_frames (frames : List String) (outputDir : String)
    (gen : String → String → Nat → String → Except String VideoOutcome) :
    Except String (List VideoOutcome) :=
  if frames.length ≠ 9 then .error "Expected 9 frames"
  else
    .ok ((pyRangeStep 8 BATCH_SIZE).flatMap fun bs =>
      (pyRange bs (min (bs + BATCH_SIZE) 8)).map fun i =>
        captureOutcome (generate_single_video frames outputDir gen i))

/-! ## Pipeline coordinator (src/gg.py lines 797-1116) -/

/-- Outcome of the `generate_image` contact-sheet call (gg.py lines 186-318):
it catches every exception and returns either a success dict or
`{"success": False, "error": ...}`. -/
inductive GenImageResult
  | success
  | failure (e : String)
deriving DecidableEq, Repr

/-- Outcome of `stitch_videos` (gg.py lines 920-985): success dict, or a
failure dict (ffmpeg missing, non-zero exit, or other exception). -/
inductive StitchResult
  | ok
  | fail (e : String)
deriving DecidableEq, Repr

/-- `crop_contact_sheet` (gg.py lines 813-852): a 3x3 grid of frames written
as `frame_01.png` .. `frame_09.png` in row-major order. -/
def crop_contact_sheet (outputDir : String) : List String :=
  (List.range 3).flatMap fun row =>
    (List.range 3).map fun col => framePath outputDir (row * 3 + col + 1)

/-- `upscale_frames` (gg.py lines 987-1027): per frame, a successful upscale
contributes `upscaled_frame_{i:02d}.png` (1-based), a failed one falls back to
the original frame path.  `upsO i` tells whether the (0-based) i-th upscale
call succeeded. -/
def upscale_frames (framePaths : List String) (outputDir : String)
    (upsO : Nat → Bool) : List String :=
  (List.range framePaths.length).map fun i =>
    if upsO i then upscaledFramePath outputDir (i + 1)
    else framePaths.getD i ""

/-- The dict returned by `process_car_images` on the normal path (gg.py lines
1104-1116). -/
structure PipelineResultDict where
  contact_sheet_path : String
  frame_paths : List String
  upscaled_frame_paths : List String
  videos : List VideoOutcome
  final_video_path : Option String
  summary : Summary
deriving DecidableEq, Repr

/-- `process_car_images` returns either `{"error": ...}` (contact-sheet
failure, gg.py line 1065) or the full result dict. -/
inductive PipelineReturn
  | errorDict (e : String)
  | resultDict (r : PipelineResultDict)
deriving DecidableEq, Repr

/-- `process_car_images` (gg.py lines 1029-1116).  `.error` models an
exception propagating out (`load_images_from_folder` raising on an empty
folder, or `generate_videos_from_frames` raising on a frame-count mismatch).
Stage 6: only stitch when at least one segment succeeded; a stitch failure
degrades to `final_video_path = None` and the run is still reported through
the normal result dict. -/
def process_car_images (inputImages : List String) (outputDir : String)
    (contactO : GenImageResult) (upsO : Nat → Bool)
    (gen : String → String → Nat → String → Except String VideoOutcome)
    (stitchO : StitchResult) : Except String PipelineReturn :=
  if inputImages.isEmpty then .error "No image files found"
  else
    match contactO with
    | .failure e => .ok (.errorDict e)
    | .success =>
      let contact_sheet_path := outputDir ++ "/contact_sheet.png"
      let frame_paths := crop_contact_sheet (outputDir ++ "/frames")
      let upscaled := upscale_frames frame_paths (outputDir ++ "/upscaled_frames") upsO
      match generate_videos_from_frames upscaled (outputDir ++ "/videos") gen with
      | .error e => .error e
      | .ok videos =>
        let successPaths := videos.filterMap fun v =>
          if v.success then v.path else none
        let final_video_path : Option String :=
          if successPaths.isEmpty then none
          else
            match stitchO with
            | .ok => some (outputDir ++ "/final_video.mp4")
            | .fail _ => none
        .ok (.resultDict
          { contact_sheet_path := contact_sheet_path
            frame_paths := frame_paths
            upscaled_frame_paths := upscaled
            videos := videos
            final_video_path := final_video_path
            summary :=
              { total_frames := frame_paths.length
                total_videos := videos.length
                successful_videos := (videos.filter fun v => v.success).length
                failed_videos := (videos.filter fun v => !v.success).length } })

/-- The `result` dict stored on the job by the worker (app.py lines 240-244):
each field read with `.get(...)` from the pipeline dict. -/
def jobResultOf (r : PipelineResultDict) : ResultRecord :=
  { contact_sheet := some r.contact_sheet_path
    final_video := r.final_video_path
    summary := some r.summary }

/-- How the worker classifies the awaited `process_car_images` call
(app.py lines 224-253): an exception is the `except` path, a dict with an
`"error"` key the failed path, any other dict the completed path. -/
def classifyPipeline : Except String PipelineReturn → PipelineOutcome
  | .error e => .raised e
  | .ok (.errorDict e) => .errKey e
  | .ok (.resultDict r) => .ok (jobResultOf r)

/-! ## Derived normal forms and demo inputs used by the theorems -/

/-- Frame paths produced by stage 3 for an output directory. -/
def pipeFrames (outputDir : String) : List String :=
  crop_contact_sheet (outputDir ++ "/frames")

/-- Upscaled frame paths produced by stage 4. -/
def pipeUpscaled (outputDir : String) (upsO : Nat → Bool) : List String :=
  upscale_frames (pipeFrames outputDir) (outputDir ++ "/upscaled_frames") upsO

/-- Segment outcomes produced by stage 5. -/
def pipeVideos (outputDir : String) (upsO : Nat → Bool)
    (gen : String → String → Nat → String → Except String VideoOutcome) :
    List VideoOutcome :=
  (List.range 8).map fun i =>
    captureOutcome (generate_single_video (pipeUpscaled outputDir upsO)
      (outputDir ++ "/videos") gen i)

/-- The result dict of a pipeline run whose contact-sheet stage succeeded. -/
def pipeDict (outputDir : String) (upsO : Nat → Bool)
    (gen : String → String → Nat → String → Except String VideoOutcome)
    (stitchO : StitchResult) : PipelineResultDict :=
  let videos := pipeVideos outputDir upsO gen
  let successPaths := videos.filterMap fun v =>
    if v.success then v.path else none
  { contact_sheet_path := outputDir ++ "/contact_sheet.png"
    frame_paths := pipeFrames outputDir
    upscaled_frame_paths := pipeUpscaled outputDir upsO
    videos := videos
    final_video_path :=
      if successPaths.isEmpty then none
      else
        match stitchO with
        | .ok => some (outputDir ++ "/final_video.mp4")
        | .fail _ => none
    summary :=
      { total_frames := (pipeFrames outputDir).length
        total_videos := videos.length
        successful_videos := (videos.filter fun v => v.success).length
        failed_videos := (videos.filter fun v => !v.success).length } }

/-- Two demo credential sets. -/
def demoCreds : List (String × String) := [("key1", "sec1"), ("key2", "sec2")]

/-- A submission oracle whose first call hits the quota (403 "not enough
credits") and whose subsequent calls succeed. -/
def quotaThenOkSubmit : Nat → Except String SubmitResult
  | 0 => .ok { success := false, error := some "insufficient_credits",
               details := some "403 not enough credits" }
  | _ + 1 => .ok { success := true, status_url := some "https://status" }

/-- A submission oracle whose first call raises a hosting error and whose
subsequent calls would succeed. -/
def hostingFailSubmit : Nat → Except String SubmitResult
  | 0 => .error "HostingError: ImgBB upload failed"
  | _ + 1 => .ok { success := true, status_url := some "https://status" }

/-- A poll oracle that always reports completion. -/
def okPoll : Nat → PollResult :=
  fun _ => { success := true, video_url := some "https://video" }

/-- A download oracle that always succeeds. -/
def okDownload : Nat → Except String Unit := fun _ => .ok ()

/-- A task oracle for the batch scheduler where every segment generation
succeeds and returns its output path. -/
def allSuccessGen : String → String → Nat → String → Except String VideoOutcome :=
  fun _ _ _ o => .ok { success := true, path := some o }

/-- Nine demo frame paths. -/
def demoFrames9 : List String :=
  ["f1", "f2", "f3", "f4", "f5", "f6", "f7", "f8", "f9"]

/-! ## Job lifecycle: invariant lemmas -/

theorem jobInv_init : JobInv initState = true := rfl

theorem jobInv_step {s s2 : SysState} {e : Ev} (hInv : JobInv s = true)
    (h : step s e = some s2) : JobInv s2 = true := by
  rcases s with ⟨⟨st, pr, res, err⟩, pc⟩
  rcases e with _ | o | _ <;> cases st <;> cases pc <;> cases res <;> cases err <;>
    (try cases o) <;> simp_all [step, workerFinish, JobInv] <;> subst s2 <;> rfl

theorem jobInv_reach {s : SysState} (h : Reach s) : JobInv s = true := by
  induction h with
  | init => exact jobInv_init
  | next e hr hstep ih => exact jobInv_step ih hstep

theorem jobInv_steps {s s2 : SysState} (hInv : JobInv s = true)
    (h : Steps s s2) : JobInv s2 = true := by
  induction h with
  | refl => exact hInv
  | tail e hst hstep ih => exact jobInv_step ih hstep

/-- A single step never changes the job record of a job whose status is
terminal. -/
theorem step_terminal_frozen {s s2 : SysState} {e : Ev}
    (hInv : JobInv s = true) (h : step s e = some s2)
    (hT : s.job.status.isTerminal = true) : s2.job = s.job := by
  rcases s with ⟨⟨st, pr, res, err⟩, pc⟩
  rcases e with _ | o | _ <;> cases st <;> cases pc <;> cases res <;> cases err <;>
    (try cases o) <;> simp_all [step, workerFinish, JobInv, Status.isTerminal] <;>
    subst s2 <;> rfl

/-- Along any number of steps, the job record of a terminal job is frozen. -/
theorem steps_terminal_frozen {s s2 : SysState} (hInv : JobInv s = true)
    (h : Steps s s2) (hT : s.job.status.isTerminal = true) : s2.job = s.job := by
  induction h with
  | refl => rfl
  | tail e hst hstep ih =>
      have hmid := ih
      have hInvMid := jobInv_steps hInv hst
      have hTmid : _ := hT
      rw [← hmid] at hTmid
      have := step_terminal_frozen hInvMid hstep hTmid
      rw [this, hmid]

/-- Once a reachable state is cancelled, its job record never changes again. -/
theorem cancelled_stays {s s2 : SysState} (hr : Reach s)
    (hc : s.job.status = .cancelled) (hsteps : Steps s s2) : s2.job = s.job := by
  have hInv := jobInv_reach hr
  exact steps_terminal_frozen hInv hsteps (by rw [hc]; rfl)

/-- C1 counterexample: the claim says that once a job's status is terminal
(completed, failed, or cancelled) exactly one of result/error is set.  The
state reached by cancelling a queued job is reachable, terminal, and has
neither result nor error set. -/
theorem C1_counterexample :
    Reach cancelledEarly ∧ cancelledEarly.job.status.isTerminal = true ∧
      exactlyOneSet cancelledEarly.job = false := by
  exact ⟨Reach.next Ev.cancel Reach.init (by decide), rfl, rfl⟩

/-- C1 (amended): in every reachable state, a completed job has exactly the
result set, a failed job has exactly the error set, a cancelled job has
neither, and a non-terminal (queued or processing) job has neither. -/
theorem C1_result_error_partition (s : SysState) (h : Reach s) :
    (s.job.status = .completed → s.job.result.isSome = true ∧ s.job.error = none) ∧
    (s.job.status = .failed → s.job.error.isSome = true ∧ s.job.result = none) ∧
    (s.job.status = .cancelled → s.job.result = none ∧ s.job.error = none) ∧
    (s.job.status.isTerminal = false → s.job.result = none ∧ s.job.error = none) := by
  have hInv := jobInv_reach h
  rcases s with ⟨⟨st, pr, res, err⟩, pc⟩
  cases st <;> cases pc <;> cases res <;> cases err <;>
    simp_all [JobInv, Status.isTerminal]

/-- Witness for C1 (amended) at the initial state. -/
theorem C1_witness :
    initState.job.result = none ∧ initState.job.error = none :=
  (C1_result_error_partition initState Reach.init).2.2.2 rfl

/-- C4: (1) no step sequence leaves a terminal status; (2) a cancellation
that fires while the job is queued leads only to states whose status is
cancelled — in particular the worker never sets processing; (3) from any
reachable cancelled state every later state is still cancelled with no error
recorded; (4) even if the in-flight pipeline call later raises, the worker's
finish block leaves a cancelled job untouched; (5) the cancel endpoint
succeeds exactly from queued or processing. -/
theorem C4_cancellation_temporal :
    (∀ s s2 : SysState, Reach s → s.job.status.isTerminal = true →
        Steps s s2 → s2.job.status = s.job.status) ∧
    (∀ s s2 s3 : SysState, Reach s → s.job.status = .queued →
        step s .cancel = some s2 → Steps s2 s3 →
        s3.job.status = .cancelled ∧ s3.job.status ≠ .processing) ∧
    (∀ s s2 : SysState, Reach s → s.job.status = .cancelled → Steps s s2 →
        s2.job.status = .cancelled ∧ s2.job.result = s.job.result ∧
          s2.job.error = s.job.error) ∧
    (∀ (s : SysState) (msg : String), s.pc = .running →
        s.job.status = .cancelled →
        step s (.finish (.raised msg)) = some { job := s.job, pc := .done }) ∧
    (∀ j : Job, (∃ j2, cancel_job j = .ok j2) ↔
        (j.status = .queued ∨ j.status = .processing)) := by
  refine ⟨?_, ?_, ?_, ?_, ?_⟩
  · intro s s2 hr hT hsteps
    have := steps_terminal_frozen (jobInv_reach hr) hsteps hT
    rw [this]
  · intro s s2 s3 hr hq hc hsteps
    have hr2 : Reach s2 := Reach.next Ev.cancel hr hc
    have hcanc : s2.job.status = .cancelled := by
      rcases s with ⟨⟨st, pr, res, err⟩, pc⟩
      simp only at hq
      subst hq
      simp [step] at hc
      rw [← hc]
    have := cancelled_stays hr2 hcanc hsteps
    rw [this, hcanc]
    exact ⟨rfl, by decide⟩
  · intro s s2 hr hc hsteps
    have := cancelled_stays hr hc hsteps
    rw [this, hc]
    exact ⟨rfl, rfl, rfl⟩
  · intro s msg hpc hc
    rcases s with ⟨⟨st, pr, res, err⟩, pc⟩
    simp only at hpc hc
    subst hpc
    subst hc
    simp [step, workerFinish]
  · intro j
    constructor
    · rintro ⟨j2, hj⟩
      by_contra hng
      simp [cancel_job, hng] at hj
    · intro hg
      refine ⟨{ j with status := .cancelled
                       progress := "Job cancelled by user" }, ?_⟩
      simp [cancel_job, hg]

/-- Witness for C4: cancelling the freshly created (queued) job yields only
cancelled states. -/
theorem C4_witness :
    cancelledEarly.job.status = .cancelled ∧
      cancelledEarly.job.status ≠ .processing :=
  C4_cancellation_temporal.2.1 initState cancelledEarly cancelledEarly
    Reach.init rfl (by decide) (Steps.refl cancelledEarly)

/-- C10: on every reachable state whose status is processing, the job has no
result field, so the contact-sheet download endpoint — which admits status
processing and then evaluates `job["result"]["contact_sheet"]` — hits the
missing `result` key (a `KeyError`), not the not-ready rejection. -/
theorem C10_processing_download_keyerror (s : SysState)
    (fe : String → Bool) (hr : Reach s) (hp : s.job.status = .processing) :
    download_contact_sheet s.job fe = .error (.keyError "result") := by
  have hInv := jobInv_reach hr
  rcases s with ⟨⟨st, pr, res, err⟩, pc⟩
  simp only at hp
  subst hp
  cases pc <;> cases res <;> cases err <;>
    simp_all [JobInv, download_contact_sheet]

/-- Witness for C10 at the state the worker reaches after starting an
uncancelled job. -/
theorem C10_witness :
    download_contact_sheet procState.job (fun _ => true) =
      .error (.keyError "result") :=
  C10_processing_download_keyerror procState (fun _ => true)
    (Reach.next Ev.startWork Reach.init (by decide)) rfl

/-! ## Rate limiter lemmas -/

theorem check_same_day (today : String) (c : Nat) :
    check_rate_limit today (some { date := today, count := c }) =
      { stored := { date := today, count := c }
        allowed := decide (c < MAX_GENERATIONS_PER_DAY)
        remaining := max 0 ((MAX_GENERATIONS_PER_DAY : Int) - (c : Int)) } := by
  simp [check_rate_limit]

/-- After `n + 1` admission attempts on one day the stored count is
`min (n + 1) MAX_GENERATIONS_PER_DAY`. -/
theorem iterAdmit_spec (today : String) (n : Nat) :
    iterAdmit today (n + 1) =
      some { date := today, count := min (n + 1) MAX_GENERATIONS_PER_DAY } := by
  induction n with
  | zero =>
      simp [iterAdmit, admissionCycle, check_rate_limit, increment_rate_limit,
        MAX_GENERATIONS_PER_DAY]
  | succ k ih =>
      rw [show k + 1 + 1 = (k + 1) + 1 from rfl, iterAdmit, ih]
      by_cases hk : k + 1 < MAX_GENERATIONS_PER_DAY
      · have hmin : min (k + 1) MAX_GENERATIONS_PER_DAY = k + 1 := by omega
        have hmin2 : min (k + 1 + 1) MAX_GENERATIONS_PER_DAY = k + 1 + 1 := by
          unfold MAX_GENERATIONS_PER_DAY at hk ⊢
          omega
        rw [hmin, hmin2]
        simp [admissionCycle, check_rate_limit, increment_rate_limit, hk]
      · have hmin : min (k + 1) MAX_GENERATIONS_PER_DAY =
            MAX_GENERATIONS_PER_DAY := by omega
        have hmin2 : min (k + 1 + 1) MAX_GENERATIONS_PER_DAY =
            MAX_GENERATIONS_PER_DAY := by omega
        rw [hmin, hmin2]
        simp [admissionCycle, check_rate_limit, increment_rate_limit]

/-- C5: (1) after `MAX_GENERATIONS_PER_DAY` admissions on one day, the
(max+1)-th admission check on the same day is rejected; (2) each of the first
max admissions on a day is accepted; (3) a check whose stored day differs from
today is accepted with the record reset; (4) recording that admission leaves
the count at exactly 1; (5) the remaining value is never negative. -/
theorem C5_rate_limit (today d : String) (c : Nat) (hday : d ≠ today) :
    ((check_rate_limit today
        (iterAdmit today MAX_GENERATIONS_PER_DAY)).allowed = false) ∧
    (∀ n, n < MAX_GENERATIONS_PER_DAY →
      (admissionCycle today (iterAdmit today n)).2 = true) ∧
    (check_rate_limit today (some { date := d, count := c }) =
      { stored := { date := today, count := 0 }, allowed := true,
        remaining := (MAX_GENERATIONS_PER_DAY : Int) }) ∧
    (increment_rate_limit today
        (some (check_rate_limit today (some { date := d, count := c })).stored) =
      { date := today, count := 1 }) ∧
    (∀ rec : Option RateRecord, 0 ≤ (check_rate_limit today rec).remaining) := by
  have hreset : check_rate_limit today (some { date := d, count := c }) =
      { stored := { date := today, count := 0 }, allowed := true,
        remaining := (MAX_GENERATIONS_PER_DAY : Int) } := by
    simp [check_rate_limit, hday, MAX_GENERATIONS_PER_DAY]
  refine ⟨?_, ?_, hreset, ?_, ?_⟩
  · rw [show MAX_GENERATIONS_PER_DAY = 14 + 1 from rfl, iterAdmit_spec,
      check_same_day]
    simp [MAX_GENERATIONS_PER_DAY]
  · intro n hn
    match n with
    | 0 =>
        simp [iterAdmit, admissionCycle, check_rate_limit,
          MAX_GENERATIONS_PER_DAY]
    | k + 1 =>
        rw [iterAdmit_spec]
        have hmin : min (k + 1) MAX_GENERATIONS_PER_DAY = k + 1 := by omega
        rw [hmin]
        simp [admissionCycle, check_rate_limit, hn]
  · rw [hreset]
    simp [increment_rate_limit]
  · intro rec
    exact le_max_left 0 _

/-- Witness for C5 with concrete days. -/
theorem C5_witness :
    ((check_rate_limit "2026-10-12"
        (iterAdmit "2026-10-12" MAX_GENERATIONS_PER_DAY)).allowed = false) ∧
    (∀ n, n < MAX_GENERATIONS_PER_DAY →
      (admissionCycle "2026-10-12" (iterAdmit "2026-10-12" n)).2 = true) ∧
    (check_rate_limit "2026-10-12" (some { date := "2026-10-11", count := 7 }) =
      { stored := { date := "2026-10-12", count := 0 }, allowed := true,
        remaining := (MAX_GENERATIONS_PER_DAY : Int) }) ∧
    (increment_rate_limit "2026-10-12"
        (some (check_rate_limit "2026-10-12"
          (some { date := "2026-10-11", count := 7 })).stored) =
      { date := "2026-10-12", count := 1 }) ∧
    (∀ rec : Option RateRecord,
      0 ≤ (check_rate_limit "2026-10-12" rec).remaining) :=
  C5_rate_limit "2026-10-12" "2026-10-11" 7 (by decide)

/-! ## Batch scheduler lemmas -/

/-- Normal form of the batch run: concatenating the batches `[0,1,2]`,
`[3,4,5]`, `[6,7]` in order yields the per-task outcomes at indices
`0..7` in input order. -/
theorem gen_videos_ok (frames : List String) (outputDir : String)
    (gen : String → String → Nat → String → Except String VideoOutcome)
    (hlen : frames.length = 9) :
    generate_videos_from_frames frames outputDir gen =
      .ok ((List.range 8).map fun i =>
        captureOutcome (generate_single_video frames outputDir gen i)) := by
  unfold generate_videos_from_frames
  rw [if_neg (by simp [hlen])]
  rfl

/-- C2: a batch run over the scheduler's task sequence (8 tasks, batches of
size 3) returns exactly one outcome per task, outcome `i` being the captured
result of task `i` (a success record, or the per-task failure record when the
task returned a failure dict or raised), in input order and independently of
the other tasks in the same or other batches. -/
theorem C2_batch_outcomes_ordered (frames : List String) (outputDir : String)
    (gen : String → String → Nat → String → Except String VideoOutcome)
    (hlen : frames.length = 9) :
    (generate_videos_from_frames frames outputDir gen =
      .ok ((List.range 8).map fun i =>
        captureOutcome (generate_single_video frames outputDir gen i))) ∧
    (∀ res, generate_videos_from_frames frames outputDir gen = .ok res →
      res.length = 8 ∧
      ∀ i, i < 8 → res[i]? =
        some (captureOutcome (generate_single_video frames outputDir gen i))) := by
  have h := gen_videos_ok frames outputDir gen hlen
  refine ⟨h, ?_⟩
  intro res hres
  rw [h] at hres
  have hres2 : (List.range 8).map
      (fun i => captureOutcome (generate_single_video frames outputDir gen i)) =
      res := by
    cases hres
    rfl
  subst hres2
  constructor
  · simp
  · intro i hi
    simp [List.getElem?_map, List.getElem?_range, hi]

/-- Witness for C2 on nine concrete frames with an all-success task oracle. -/
theorem C2_witness :
    generate_videos_from_frames demoFrames9 "out" allSuccessGen =
      .ok ((List.range 8).map fun i =>
        captureOutcome (generate_single_video demoFrames9 "out" allSuccessGen i)) :=
  (C2_batch_outcomes_ordered demoFrames9 "out" allSuccessGen (by decide)).1

/-! ## Retrier step lemmas -/

/-- An exception out of the submission call (e.g. a hosting failure inside
`upload_to_imgbb`) propagates out of the retry loop immediately: the outcome
is the exception and exactly one submission was made. -/
theorem retrier_step_exn {creds : List (String × String)}
    {submitO : Nat → Except String SubmitResult} {pollO : Nat → PollResult}
    {downloadO : Nat → Except String Unit} {op : String}
    {dur attempt credIdx sN pN dN : Nat} {e : String}
    (hA : attempt ≤ MAX_RETRIES) (hC : credIdx < creds.length)
    (hs : submitO sN = .error e) :
    retrierLoop creds submitO pollO downloadO op dur attempt credIdx sN pN dN =
      (.error (.exn e), [credIdx]) := by
  rw [retrierLoop, dif_pos ⟨hA, hC⟩, hs]

/-- A quota-exhausted submission with an unused credential set left restarts
the loop with the next credential and the same attempt counter. -/
theorem retrier_step_insufficient {creds : List (String × String)}
    {submitO : Nat → Except String SubmitResult} {pollO : Nat → PollResult}
    {downloadO : Nat → Except String Unit} {op : String}
    {dur attempt credIdx sN pN dN : Nat} {sr : SubmitResult}
    (hA : attempt ≤ MAX_RETRIES) (hC : credIdx < creds.length)
    (hs : submitO sN = .ok sr) (hFail : sr.success = false)
    (hErr : sr.error = some "insufficient_credits")
    (hMore : credIdx + 1 < creds.length) :
    retrierLoop creds submitO pollO downloadO op dur attempt credIdx sN pN dN =
      ((retrierLoop creds submitO pollO downloadO op dur attempt (credIdx + 1)
          (sN + 1) pN dN).1,
        credIdx :: (retrierLoop creds submitO pollO downloadO op dur attempt
          (credIdx + 1) (sN + 1) pN dN).2) := by
  rw [retrierLoop, dif_pos ⟨hA, hC⟩, hs]
  simp [hFail, hErr, hMore]

/-- A successful submission followed by a successful poll and download returns
the persisted artifact, with exactly this one submission logged. -/
theorem retrier_step_success {creds : List (String × String)}
    {submitO : Nat → Except String SubmitResult} {pollO : Nat → PollResult}
    {downloadO : Nat → Except String Unit} {op : String}
    {dur attempt credIdx sN pN dN : Nat} {sr : SubmitResult} {u vu : String}
    (hA : attempt ≤ MAX_RETRIES) (hC : credIdx < creds.length)
    (hs : submitO sN = .ok sr) (hSucc : sr.success = true)
    (hUrl : sr.status_url = some u)
    (hPSucc : (pollO pN).success = true) (hPUrl : (pollO pN).video_url = some vu)
    (hdl : downloadO dN = .ok ()) :
    retrierLoop creds submitO pollO downloadO op dur attempt credIdx sN pN dN =
      (.ok { path := op, duration_seconds := dur }, [credIdx]) := by
  rw [retrierLoop, dif_pos ⟨hA, hC⟩, hs]
  simp [hSucc, hUrl, hPSucc, hPUrl, hdl]

/-- C3: (general clause) when a submission reports quota exhaustion and an
unused credential set remains, the retrier switches to the next credential
set and resubmits without consuming an attempt; (scenario clause) with a
primary credential that reports quota exhaustion and a secondary whose
submission and poll succeed, the retrier succeeds via the secondary and the
submission log is `[0, 1]` — exactly one submission per credential. -/
theorem C3_credential_failover :
    (∀ (creds : List (String × String))
        (submitO : Nat → Except String SubmitResult) (pollO : Nat → PollResult)
        (downloadO : Nat → Except String Unit) (op : String)
        (dur attempt credIdx sN pN dN : Nat) (sr : SubmitResult),
      attempt ≤ MAX_RETRIES → credIdx < creds.length → submitO sN = .ok sr →
      sr.success = false → sr.error = some "insufficient_credits" →
      credIdx + 1 < creds.length →
      retrierLoop creds submitO pollO downloadO op dur attempt credIdx sN pN dN =
        ((retrierLoop creds submitO pollO downloadO op dur attempt (credIdx + 1)
            (sN + 1) pN dN).1,
          credIdx :: (retrierLoop creds submitO pollO downloadO op dur attempt
            (credIdx + 1) (sN + 1) pN dN).2)) ∧
    (retrierLoop demoCreds quotaThenOkSubmit okPoll okDownload "seg.mp4" 5
        1 0 0 0 0 =
      (.ok { path := "seg.mp4", duration_seconds := 5 }, [0, 1])) := by
  constructor
  · intro creds submitO pollO downloadO op dur attempt credIdx sN pN dN sr
      hA hC hs hFail hErr hMore
    exact retrier_step_insufficient hA hC hs hFail hErr hMore
  · rw [retrier_step_insufficient (by decide) (by decide) rfl rfl rfl (by decide),
      retrier_step_success (by decide) (by decide) rfl rfl rfl rfl rfl rfl]

/-- Witness for C3's general clause at the demo oracles. -/
theorem C3_witness :
    retrierLoop demoCreds quotaThenOkSubmit okPoll okDownload "seg.mp4" 5
        1 0 0 0 0 =
      ((retrierLoop demoCreds quotaThenOkSubmit okPoll okDownload "seg.mp4" 5
          1 1 1 0 0).1,
        0 :: (retrierLoop demoCreds quotaThenOkSubmit okPoll okDownload
          "seg.mp4" 5 1 1 1 0 0).2) :=
  C3_credential_failover.1 demoCreds quotaThenOkSubmit okPoll okDownload
    "seg.mp4" 5 1 0 0 0 0
    { success := false, error := some "insufficient_credits",
      details := some "403 not enough credits" }
    (by decide) (by decide) rfl rfl rfl (by decide)

/-- C7 counterexample: with a hosting failure on the very first submission,
attempts and the second credential still in budget, and every later submission
bound to succeed, the retrier ends immediately with the propagated exception
and the submission log is `[0]` — no remaining attempt is ever used for a
fresh submission, contradicting the claim that a hosting failure merely
consumes one retry attempt. -/
theorem C7_counterexample :
    retrierLoop demoCreds hostingFailSubmit okPoll okDownload "out.mp4" 5
        1 0 0 0 0 =
      (.error (.exn "HostingError: ImgBB upload failed"), [0]) ∧
    hostingFailSubmit 1 =
      .ok { success := true, status_url := some "https://status" } ∧
    (1 : Nat) < MAX_RETRIES ∧ 0 + 1 < demoCreds.length := by
  exact ⟨retrier_step_exn (by decide) (by decide) rfl, rfl, by decide, by decide⟩

/-- C7 (amended): a hosting failure during submission propagates as an
exception that aborts the retrier at once — fatal to the whole generation
call, with that single submission logged and no further attempt made with any
credential; the public wrapper surfaces it as the failure outcome. -/
theorem C7_hosting_error_amended (creds : List (String × String))
    (k1 s1 k2 s2 : String)
    (submitO : Nat → Except String SubmitResult) (pollO : Nat → PollResult)
    (downloadO : Nat → Except String Unit) (op : String)
    (dur attempt credIdx sN pN dN : Nat) (e : String)
    (hA : attempt ≤ MAX_RETRIES) (hC : credIdx < creds.length)
    (hk1 : k1 ≠ "") (hs : submitO sN = .error e) (hs0 : submitO 0 = .error e) :
    (retrierLoop creds submitO pollO downloadO op dur attempt credIdx sN pN dN =
      (.error (.exn e), [credIdx])) ∧
    (generate_higgsfield k1 s1 k2 s2 submitO pollO downloadO op dur =
      ({ success := false, error := some e }, [0])) := by
  refine ⟨retrier_step_exn hA hC hs, ?_⟩
  have hlen : 0 < (buildCredentials k1 s1 k2 s2).length := by
    by_cases hk2 : k2 = "" <;> simp [buildCredentials, hk1, hk2]
  unfold generate_higgsfield generate_higgsfield_video
  rw [if_neg hk1, retrier_step_exn (by decide) hlen hs0]

/-- Witness for C7 (amended) at the demo oracles. -/
theorem C7_witness :
    (retrierLoop demoCreds hostingFailSubmit okPoll okDownload "out.mp4" 5
        1 0 0 0 0 =
      (.error (.exn "HostingError: ImgBB upload failed"), [0])) ∧
    (generate_higgsfield "key1" "sec1" "key2" "sec2" hostingFailSubmit okPoll
        okDownload "out.mp4" 5 =
      ({ success := false, error := some "HostingError: ImgBB upload failed" },
        [0])) :=
  C7_hosting_error_amended demoCreds "key1" "sec1" "key2" "sec2"
    hostingFailSubmit okPoll okDownload "out.mp4" 5 1 0 0 0 0
    "HostingError: ImgBB upload failed"
    (by decide) (by decide) (by decide) rfl rfl

/-! ## Poller lemmas -/

/-- Unfolding the loop across one swallowed 5xx response: no outcome is
produced, no budget of any kind is consumed, only the clock advances by the
request duration plus the current sleep interval. -/
theorem poll_transient_swallowed {resp : Nat → PollHttp} {reqTime : Nat → ℚ}
    {maxWait : ℚ} {f k : Nat} {st : PollSt} {c : Nat}
    (hr : resp k = .serverErr c) (hto : ¬ maxWait < st.elapsed) :
    poll_status resp reqTime maxWait (f + 1) k st =
      poll_status resp reqTime maxWait f (k + 1)
        { elapsed := st.elapsed + reqTime k + st.interval,
          interval := st.interval } := by
  rw [poll_status, if_neg hto, hr]

/-- Under responses that never reach a terminal state, enough fuel makes the
poller return the timeout dict, and the elapsed time at that moment exceeds
the ceiling. -/
theorem poll_reaches_timeout {resp : Nat → PollHttp} {reqTime : Nat → ℚ}
    {maxWait : ℚ} (htrans : ∀ k, PollTransient (resp k))
    (hreq : ∀ k, 0 ≤ reqTime k) :
    ∀ (fuel k : Nat) (st : PollSt), 2 ≤ st.interval →
      maxWait < st.elapsed + 2 * fuel →
      ∃ st2, poll_status resp reqTime maxWait fuel k st =
        some (pollTimeoutResult, st2) ∧ maxWait < st2.elapsed := by
  intro fuel
  induction fuel with
  | zero =>
      intro k st hint hfu
      have hto : maxWait < st.elapsed := by
        push_cast at hfu
        linarith
      rw [poll_status, if_pos hto]
      exact ⟨st, rfl, hto⟩
  | succ f ih =>
      intro k st hint hfu
      by_cases hto : maxWait < st.elapsed
      · rw [poll_status, if_pos hto]
        exact ⟨st, rfl, hto⟩
      · have hreqk := hreq k
        have ht := htrans k
        rw [poll_status, if_neg hto]
        cases hr : resp k with
        | ok200 status vurl errF =>
            rw [hr] at ht
            obtain ⟨h1, h2⟩ := ht
            have hi2 : (2 : ℚ) ≤ min (st.interval * (6 / 5)) 10 := by
              rw [le_min_iff]
              constructor
              · nlinarith
              · norm_num
            have harith : maxWait <
                (st.elapsed + reqTime k + min (st.interval * (6 / 5)) 10) +
                  2 * f := by
              push_cast at hfu
              linarith
            obtain ⟨st2, hs2, hgt⟩ := ih (k + 1)
              { elapsed := st.elapsed + reqTime k + min (st.interval * (6 / 5)) 10,
                interval := min (st.interval * (6 / 5)) 10 } hi2 harith
            refine ⟨st2, ?_, hgt⟩
            simpa only [if_neg h1, if_neg h2] using hs2
        | serverErr c =>
            have harith : maxWait <
                (st.elapsed + reqTime k + st.interval) + 2 * f := by
              push_cast at hfu
              linarith
            obtain ⟨st2, hs2, hgt⟩ := ih (k + 1)
              { elapsed := st.elapsed + reqTime k + st.interval,
                interval := st.interval } hint harith
            refine ⟨st2, ?_, hgt⟩
            simpa only [] using hs2
        | clientHttp c body =>
            rw [hr] at ht
            exact absurd ht (by simp [PollTransient])
        | netErr =>
            have harith : maxWait <
                (st.elapsed + reqTime k + st.interval) + 2 * f := by
              push_cast at hfu
              linarith
            obtain ⟨st2, hs2, hgt⟩ := ih (k + 1)
              { elapsed := st.elapsed + reqTime k + st.interval,
                interval := st.interval } hint harith
            refine ⟨st2, ?_, hgt⟩
            simpa only [] using hs2
        | exc m =>
            rw [hr] at ht
            exact absurd ht (by simp [PollTransient])

/-- Under responses that never reach a terminal state, the only outcome the
poller can produce is the timeout dict, and only when the elapsed time has
exceeded the ceiling — never earlier. -/
theorem poll_only_timeout {resp : Nat → PollHttp} {reqTime : Nat → ℚ}
    {maxWait : ℚ} (htrans : ∀ k, PollTransient (resp k)) :
    ∀ (fuel k : Nat) (st : PollSt) (r : PollResult) (st2 : PollSt),
      poll_status resp reqTime maxWait fuel k st = some (r, st2) →
      r = pollTimeoutResult ∧ maxWait < st2.elapsed := by
  intro fuel
  induction fuel with
  | zero =>
      intro k st r st2 h
      rw [poll_status] at h
      by_cases hto : maxWait < st.elapsed
      · rw [if_pos hto] at h
        simp only [Option.some.injEq, Prod.mk.injEq] at h
        obtain ⟨hrr, hss⟩ := h
        subst hss
        exact ⟨hrr.symm ▸ rfl, hto⟩
      · rw [if_neg hto] at h
        exact absurd h (by simp)
  | succ f ih =>
      intro k st r st2 h
      rw [poll_status] at h
      by_cases hto : maxWait < st.elapsed
      · rw [if_pos hto] at h
        simp only [Option.some.injEq, Prod.mk.injEq] at h
        obtain ⟨hrr, hss⟩ := h
        subst hss
        exact ⟨hrr.symm ▸ rfl, hto⟩
      · rw [if_neg hto] at h
        have ht := htrans k
        cases hr : resp k with
        | ok200 status vurl errF =>
            rw [hr] at ht h
            obtain ⟨h1, h2⟩ := ht
            simp only [if_neg h1, if_neg h2] at h
            exact ih (k + 1) _ r st2 h
        | serverErr c =>
            rw [hr] at h
            simp only [] at h
            exact ih (k + 1) _ r st2 h
        | clientHttp c body =>
            rw [hr] at ht
            exact absurd ht (by simp [PollTransient])
        | netErr =>
            rw [hr] at h
            simp only [] at h
            exact ih (k + 1) _ r st2 h
        | exc m =>
            rw [hr] at ht
            exact absurd ht (by simp [PollTransient])

/-- C6: for a handle that never reaches a terminal state (all responses are
pending 200s, server 5xxs, or network timeouts): (1) from the initial state
(`elapsed = 0`, `poll_interval = 2`) the poller returns the single
`poll_timeout` outcome, at a moment when the elapsed wall-clock time exceeds
the 900 second ceiling; (2) any outcome it can ever produce is that timeout
dict, and only with the ceiling already exceeded — never earlier; (3) a
transient 5xx is swallowed: the loop continues on the backoff schedule
without producing an outcome or consuming any budget. -/
theorem C6_poll_timeout (resp : Nat → PollHttp) (reqTime : Nat → ℚ)
    (htrans : ∀ k, PollTransient (resp k)) (hreq : ∀ k, 0 ≤ reqTime k) :
    (∃ st2, poll_status resp reqTime 900 451 0 pollInitSt =
        some (pollTimeoutResult, st2) ∧ 900 < st2.elapsed) ∧
    (∀ (fuel k : Nat) (st : PollSt) (r : PollResult) (st2 : PollSt),
      poll_status resp reqTime 900 fuel k st = some (r, st2) →
      r = pollTimeoutResult ∧ 900 < st2.elapsed) ∧
    (∀ (f k : Nat) (st : PollSt) (c : Nat), resp k = .serverErr c →
      ¬ (900 : ℚ) < st.elapsed →
      poll_status resp reqTime 900 (f + 1) k st =
        poll_status resp reqTime 900 f (k + 1)
          { elapsed := st.elapsed + reqTime k + st.interval,
            interval := st.interval }) := by
  refine ⟨?_, ?_, ?_⟩
  · exact poll_reaches_timeout htrans hreq 451 0 pollInitSt (by norm_num [pollInitSt])
      (by norm_num [pollInitSt])
  · exact poll_only_timeout htrans
  · intro f k st c hr hto
    exact poll_transient_swallowed hr hto

/-- Witness for C6 with an always-5xx handle and instantaneous requests. -/
theorem C6_witness :
    ∃ st2, poll_status (fun _ => PollHttp.serverErr 500) (fun _ => 0) 900 451 0
        pollInitSt = some (pollTimeoutResult, st2) ∧ 900 < st2.elapsed :=
  (C6_poll_timeout (fun _ => PollHttp.serverErr 500) (fun _ => 0)
    (fun _ => trivial) (fun _ => le_refl 0)).1

/-! ## Pipeline lemmas -/

/-- The contact sheet is always cropped into exactly 9 frames. -/
theorem crop_contact_sheet_length (d : String) :
    (crop_contact_sheet d).length = 9 := rfl

/-- Normal form of a pipeline run whose contact-sheet stage succeeded on a
non-empty input folder. -/
theorem process_car_images_success (inputs : List String) (outputDir : String)
    (upsO : Nat → Bool)
    (gen : String → String → Nat → String → Except String VideoOutcome)
    (stitchO : StitchResult) (hne : inputs ≠ []) :
    process_car_images inputs outputDir .success upsO gen stitchO =
      .ok (.resultDict (pipeDict outputDir upsO gen stitchO)) := by
  have hE : inputs.isEmpty = false := by
    cases inputs with
    | nil => exact absurd rfl hne
    | cons a l => rfl
  have hlen : (upscale_frames (crop_contact_sheet (outputDir ++ "/frames"))
      (outputDir ++ "/upscaled_frames") upsO).length = 9 := by
    simp [upscale_frames, crop_contact_sheet_length]
  unfold process_car_images
  rw [hE]
  simp only [Bool.false_eq_true, if_false]
  rw [gen_videos_ok _ (outputDir ++ "/videos") gen hlen]
  rfl

/-- When every segment outcome is a failure, the successful-path list is
empty. -/
theorem filterMap_none_of_all_fail {videos : List VideoOutcome}
    (h : ∀ v ∈ videos, v.success = false) :
    (videos.filterMap fun v => if v.success then v.path else none) = [] := by
  induction videos with
  | nil => rfl
  | cons a l ih =>
      have ha := h a (by simp)
      rw [List.filterMap_cons]
      simp only [ha, Bool.false_eq_true, if_false]
      exact ih fun v hv => h v (by simp [hv])

/-- C8: if the pipeline reaches the segment stage (non-empty inputs, contact
sheet succeeded) and either the stitch step fails or zero segments succeeded,
the run still returns the normal result dict, with the final-video field
`none` and the 8 segment outcomes listed, and the worker moves the job to
`completed` (never `failed`) with that result attached. -/
theorem C8_stitch_degraded (inputs : List String) (outputDir : String)
    (upsO : Nat → Bool)
    (gen : String → String → Nat → String → Except String VideoOutcome)
    (stitchO : StitchResult) (hne : inputs ≠ [])
    (hdeg : stitchO ≠ StitchResult.ok ∨
      ∀ s e p o, (captureOutcome (gen s e p o)).success = false) :
    (process_car_images inputs outputDir .success upsO gen stitchO =
      .ok (.resultDict (pipeDict outputDir upsO gen stitchO))) ∧
    (pipeDict outputDir upsO gen stitchO).final_video_path = none ∧
    (pipeDict outputDir upsO gen stitchO).videos.length = 8 ∧
    (∀ j : Job, j.status = .processing →
      workerFinish j (classifyPipeline
          (process_car_images inputs outputDir .success upsO gen stitchO)) =
        { j with status := .completed
                 result := some (jobResultOf (pipeDict outputDir upsO gen stitchO))
                 progress := "Video generation complete!" }) := by
  have hmain := process_car_images_success inputs outputDir upsO gen stitchO hne
  have hfinal : (pipeDict outputDir upsO gen stitchO).final_video_path = none := by
    rcases hdeg with hst | hfail
    · cases stitchO with
      | ok => exact absurd rfl hst
      | fail e => simp [pipeDict]
    · have hall : ∀ v ∈ pipeVideos outputDir upsO gen, v.success = false := by
        intro v hv
        simp only [pipeVideos, List.mem_map, List.mem_range] at hv
        obtain ⟨i, hi, hveq⟩ := hv
        rw [← hveq]
        exact hfail _ _ _ _
      have hnilp := filterMap_none_of_all_fail hall
      simp [pipeDict, hnilp]
  refine ⟨hmain, hfinal, ?_, ?_⟩
  · simp [pipeDict, pipeVideos]
  · intro j hj
    rw [hmain]
    simp [classifyPipeline, workerFinish, hj]

/-- Witness for C8: one input image, all segments succeed, ffmpeg missing. -/
theorem C8_witness :
    (process_car_images ["a.png"] "o" .success (fun _ => true) allSuccessGen
        (.fail "ffmpeg not installed") =
      .ok (.resultDict (pipeDict "o" (fun _ => true) allSuccessGen
        (.fail "ffmpeg not installed")))) ∧
    (pipeDict "o" (fun _ => true) allSuccessGen
      (.fail "ffmpeg not installed")).final_video_path = none ∧
    (pipeDict "o" (fun _ => true) allSuccessGen
      (.fail "ffmpeg not installed")).videos.length = 8 ∧
    (∀ j : Job, j.status = .processing →
      workerFinish j (classifyPipeline
          (process_car_images ["a.png"] "o" .success (fun _ => true)
            allSuccessGen (.fail "ffmpeg not installed"))) =
        { j with status := .completed
                 result := some (jobResultOf (pipeDict "o" (fun _ => true)
                   allSuccessGen (.fail "ffmpeg not installed")))
                 progress := "Video generation complete!" }) :=
  C8_stitch_degraded ["a.png"] "o" (fun _ => true) allSuccessGen
    (.fail "ffmpeg not installed") (by simp) (Or.inl (by simp))

/-- C9 counterexample: in the all-success scenario the pipeline crops the
composite into 9 sub-frames (not 4) and runs 8 batch tasks (not 3), so the
completed summary is `{total_frames: 9, total_videos: 8, successful_videos: 8,
failed_videos: 0}`, not `{4, 3, 3, 0}`. -/
theorem C9_counterexample :
    (process_car_images ["car.jpg"] "out" .success (fun _ => true)
        allSuccessGen .ok =
      .ok (.resultDict (pipeDict "out" (fun _ => true) allSuccessGen .ok))) ∧
    (pipeDict "out" (fun _ => true) allSuccessGen .ok).summary =
      { total_frames := 9, total_videos := 8, successful_videos := 8,
        failed_videos := 0 } ∧
    (pipeDict "out" (fun _ => true) allSuccessGen .ok).summary ≠
      { total_frames := 4, total_videos := 3, successful_videos := 3,
        failed_videos := 0 } ∧
    (pipeDict "out" (fun _ => true) allSuccessGen .ok).frame_paths.length = 9 := by
  refine ⟨process_car_images_success _ _ _ _ _ (by simp), ?_, ?_, ?_⟩
  · rfl
  · decide
  · rfl

/-- C9 (amended): with non-empty inputs, a successful composite, all segment
generations succeeding and a successful stitch, the pipeline partitions the
composite into 9 sub-frames and builds one batch task per consecutive pair
(N frames yield N - 1 = 8 tasks), and the completed result has 9 frame paths,
8 segment outcomes, one final path, and summary `{total_frames: 9,
total_videos: 8, successful_videos: 8, failed_videos: 0}`. -/
theorem C9_end_to_end_amended (inputs : List String) (outputDir : String)
    (upsO : Nat → Bool)
    (gen : String → String → Nat → String → Except String VideoOutcome)
    (hne : inputs ≠ [])
    (hgen : ∀ s e p o, gen s e p o = .ok { success := true, path := some o }) :
    (process_car_images inputs outputDir .success upsO gen .ok =
      .ok (.resultDict (pipeDict outputDir upsO gen .ok))) ∧
    (pipeDict outputDir upsO gen .ok).frame_paths.length = 9 ∧
    (pipeDict outputDir upsO gen .ok).videos.length = 8 ∧
    (pipeDict outputDir upsO gen .ok).videos.length =
      (pipeDict outputDir upsO gen .ok).frame_paths.length - 1 ∧
    (pipeDict outputDir upsO gen .ok).final_video_path =
      some (outputDir ++ "/final_video.mp4") ∧
    (pipeDict outputDir upsO gen .ok).summary =
      { total_frames := 9, total_videos := 8, successful_videos := 8,
        failed_videos := 0 } := by
  have hr8 : List.range 8 = [0, 1, 2, 3, 4, 5, 6, 7] := rfl
  have hvid : pipeVideos outputDir upsO gen =
      [0, 1, 2, 3, 4, 5, 6, 7].map fun i =>
        ({ success := true,
           path := some (videoSegPath (outputDir ++ "/videos") (i + 1)) } :
          VideoOutcome) := by
    rw [pipeVideos, hr8]
    simp [generate_single_video, hgen, captureOutcome]
  have hmain := process_car_images_success inputs outputDir upsO gen .ok hne
  refine ⟨hmain, ?_, ?_, ?_, ?_, ?_⟩
  · simp [pipeDict, pipeFrames, crop_contact_sheet_length]
  · simp [pipeDict, hvid]
  · simp [pipeDict, hvid, pipeFrames, crop_contact_sheet_length]
  · simp [pipeDict, hvid]
  · simp [pipeDict, hvid, pipeFrames, crop_contact_sheet_length, Summary.mk.injEq]

/-- Witness for C9 (amended) on one concrete input image. -/
theorem C9_witness :
    (process_car_images ["car.jpg"] "out" .success (fun _ => false)
        allSuccessGen .ok =
      .ok (.resultDict (pipeDict "out" (fun _ => false) allSuccessGen .ok))) ∧
    (pipeDict "out" (fun _ => false) allSuccessGen .ok).frame_paths.length = 9 ∧
    (pipeDict "out" (fun _ => false) allSuccessGen .ok).videos.length = 8 ∧
    (pipeDict "out" (fun _ => false) allSuccessGen .ok).videos.length =
      (pipeDict "out" (fun _ => false) allSuccessGen .ok).frame_paths.length - 1 ∧
    (pipeDict "out" (fun _ => false) allSuccessGen .ok).final_video_path =
      some ("out" ++ "/final_video.mp4") ∧
    (pipeDict "out" (fun _ => false) allSuccessGen .ok).summary =
      { total_frames := 9, total_videos := 8, successful_videos := 8,
        failed_videos := 0 } :=
  C9_end_to_end_amended ["car.jpg"] "out" (fun _ => false) allSuccessGen
    (by simp) (fun _ _ _ _ => rfl)

end CarVisualizer
